import Mathlib

/-!
Verification of the permission-guarded mutation pipeline of the
metashark-afiliados repository.

The definitions below are a shallow embedding of:
  - src/lib/data/permissions.ts        (hasWorkspacePermission)
  - src/lib/auth/user-permissions.ts   (requireWorkspacePermission, requireSitePermission)
  - src/lib/data/sites.ts              (getSiteById)
  - src/lib/actions/sites.actions.ts   (createSiteAction, updateSiteAction, deleteSiteAction)
  - src/lib/actions/campaigns.actions.ts (createCampaignAction)
  - src/lib/actions/_helpers/audit-log.helper.ts (createAuditLog)
  - src/lib/hooks/use-subdomain-availability.ts (availabilityReducer)
  - src/lib/hooks/use-optimistic-resource-management.ts (handleCreate, handleDelete)

Database queries are modelled by explicit environments (a list of rows plus
injected storage outcomes); logging is modelled by returning the list of log
entries a call emits; side effects (permission lookups, audit-log insert
attempts, cache revalidations) are recorded in an explicit event trace.
-/

/-- Workspace-level roles, the `workspace_role` enum of the database. -/
inductive WorkspaceRole where
  | owner
  | admin
  | member
  deriving DecidableEq, Repr

/-- A PostgREST error object; only the `code` field is inspected by the code. -/
structure PgError where
  code : String
  deriving DecidableEq, Repr

/-- The shape returned by a supabase `.single()` query: a data payload or an
error (code "PGRST116" meaning the query did not return exactly one row). -/
structure SingleResult (α : Type) where
  data : Option α
  error : Option PgError
  deriving DecidableEq, Repr

/-- Log levels of the logger used across the repository. -/
inductive LogLevel where
  | trace
  | info
  | warn
  | error
  deriving DecidableEq, Repr

/-- One structured log call. -/
structure LogEntry where
  level : LogLevel
  message : String
  deriving DecidableEq, Repr

/-- A row of the `workspace_members` table. -/
structure MembershipRow where
  user_id : String
  workspace_id : String
  role : WorkspaceRole
  deriving DecidableEq, Repr

/-- A row of the `sites` table restricted to the columns the guards select
(`id, subdomain, workspace_id` — the SiteBasicInfo contract). -/
structure SiteRow where
  id : String
  subdomain : String
  workspace_id : String
  deriving DecidableEq, Repr

/-- The rows of `workspace_members` matching the `.eq` filters on
user_id and workspace_id. -/
def matchingRows (db : List MembershipRow) (u w : String) : List MembershipRow :=
  db.filter (fun r => r.user_id == u && r.workspace_id == w)

/-- Semantics of the `.single()` membership query: exactly one matching row
yields its `role` column; otherwise PostgREST reports error PGRST116. -/
def dbSingle (db : List MembershipRow) (u w : String) : SingleResult WorkspaceRole :=
  match matchingRows db u w with
  | [r] => { data := some r.role, error := none }
  | _ => { data := none, error := some { code := "PGRST116" } }

/-- Embedding of `hasWorkspacePermission` (src/lib/data/permissions.ts).
Takes the result of the membership `.single()` query and returns the boolean
decision together with the log entries the call emits.  Mirrors the source:
on `error || !member` it returns false, logging an error only when the error
code differs from "PGRST116"; otherwise it checks role membership. -/
def hasWorkspacePermission (res : SingleResult WorkspaceRole)
    (userId workspaceId : String) (requiredRoles : List WorkspaceRole) :
    Bool × List LogEntry :=
  match res.error, res.data with
  | some e, _ =>
      if e.code ≠ "PGRST116" then
        (false,
         [{ level := .error,
            message := "[AuthPermissions] Error al verificar permisos para usuario "
              ++ userId ++ " en workspace " ++ workspaceId ++ ":" }])
      else (false, [])
  | none, none => (false, [])
  | none, some role => (requiredRoles.contains role, [])

/-- The authenticated user object (only `id` is used by this subsystem). -/
structure User where
  id : String
  deriving DecidableEq, Repr

/-- The discriminated error codes of the guard layer (`AuthResult`). -/
inductive AuthError where
  | SESSION_NOT_FOUND
  | PERMISSION_DENIED
  | NOT_FOUND
  deriving DecidableEq, Repr

/-- The guard layer's discriminated result type. -/
inductive AuthResult (α : Type) where
  | success (data : α)
  | failure (error : AuthError)
  deriving DecidableEq, Repr

/-- Observable side effects of a guarded call. -/
inductive TraceEvent where
  | permCheckInvoked (userId workspaceId : String)
  | auditAttempt (action : String)
  | revalidated (path : String)
  deriving DecidableEq, Repr

/-- Log output plus event trace of a call. -/
structure ActionTrace where
  logs : List LogEntry
  events : List TraceEvent
  deriving DecidableEq, Repr

/-- The server-side environment a guard runs against: the current session and
the relevant database tables. -/
structure AuthEnv where
  session : Option User
  members : List MembershipRow
  sites : List SiteRow
  deriving DecidableEq, Repr

/-- The trace log emitted by `getAuthenticatedUserAuthData` on each cache miss. -/
def authCacheTrace : LogEntry :=
  { level := .trace,
    message := "[AuthCache] Miss: Obteniendo datos de sesion del usuario." }

/-- Embedding of `getSiteById` (src/lib/data/sites.ts): the `.single()` query
on `sites` by id, returning null on PGRST116 (row absent). -/
def getSiteById (sites : List SiteRow) (siteId : String) : Option SiteRow :=
  sites.find? (fun s => s.id == siteId)

/-- Embedding of `requireWorkspacePermission` (src/lib/auth/user-permissions.ts):
resolve the session, then delegate to `hasWorkspacePermission`; the denial
path returns PERMISSION_DENIED with no log call of its own. -/
def requireWorkspacePermission (env : AuthEnv) (workspaceId : String)
    (requiredRoles : List WorkspaceRole) : AuthResult User × ActionTrace :=
  match env.session with
  | none => (.failure .SESSION_NOT_FOUND, { logs := [authCacheTrace], events := [] })
  | some user =>
      let check := hasWorkspacePermission (dbSingle env.members user.id workspaceId)
        user.id workspaceId requiredRoles
      if check.fst then
        (.success user,
         { logs := [authCacheTrace] ++ check.snd,
           events := [.permCheckInvoked user.id workspaceId] })
      else
        (.failure .PERMISSION_DENIED,
         { logs := [authCacheTrace] ++ check.snd,
           events := [.permCheckInvoked user.id workspaceId] })

/-- Embedding of `requireSitePermission` (src/lib/auth/user-permissions.ts):
resolve the session, fetch the site by id (NOT_FOUND when absent), then check
workspace permission against the site's parent workspace, logging a warning
on denial. -/
def requireSitePermission (env : AuthEnv) (siteId : String)
    (requiredRoles : List WorkspaceRole) : AuthResult (User × SiteRow) × ActionTrace :=
  match env.session with
  | none => (.failure .SESSION_NOT_FOUND, { logs := [authCacheTrace], events := [] })
  | some user =>
      match getSiteById env.sites siteId with
      | none => (.failure .NOT_FOUND, { logs := [authCacheTrace], events := [] })
      | some site =>
          let check := hasWorkspacePermission
            (dbSingle env.members user.id site.workspace_id)
            user.id site.workspace_id requiredRoles
          if check.fst then
            (.success (user, site),
             { logs := [authCacheTrace] ++ check.snd,
               events := [.permCheckInvoked user.id site.workspace_id] })
          else
            (.failure .PERMISSION_DENIED,
             { logs := [authCacheTrace] ++ check.snd ++
                 [{ level := .warn,
                    message := "[AuthGuard] VIOLACION DE ACCESO A SITIO: Usuario "
                      ++ user.id ++ " intento acceder al sitio " ++ siteId
                      ++ " sin permisos en el workspace " ++ site.workspace_id ++ "." }],
               events := [.permCheckInvoked user.id site.workspace_id] })

/-- The `ActionResult` type of src/lib/validators: success payload or a
user-facing error string. -/
inductive ActionResult (α : Type) where
  | success (data : α)
  | failure (error : String)
  deriving DecidableEq, Repr

/-- Outcome of a Zod schema parse: the parsed value or a thrown ZodError. -/
inductive ParseResult (α : Type) where
  | ok (value : α)
  | zodError
  deriving DecidableEq, Repr

/-- Outcome of a supabase insert that selects the new row's id. -/
inductive InsertResult where
  | inserted (id : String)
  | failed (e : PgError)
  deriving DecidableEq, Repr

/-- Outcome of the insert into `audit_logs` inside `createAuditLog`: success,
a storage error reported in the `error` field, or a thrown exception. -/
inductive AuditInsertOutcome where
  | ok
  | dbError (e : PgError)
  | thrown (msg : String)
  deriving DecidableEq, Repr

/-- The try-block body of `createAuditLog`
(src/lib/actions/_helpers/audit-log.helper.ts): the insert runs, a storage
error is logged, and a thrown exception escapes the block as `Except.error`. -/
def auditLogTryBlock (action : String) (outcome : AuditInsertOutcome) :
    Except String (List LogEntry) :=
  match outcome with
  | .ok => .ok []
  | .dbError _ =>
      .ok [{ level := .error,
             message := "[AuditLogHelper] No se pudo guardar el log de auditoria para la accion "
               ++ action ++ ":" }]
  | .thrown _ => .error "thrown"

/-- Embedding of `createAuditLog`: the try-block wrapped in the catch handler.
The return type is a plain list of log entries — the function always returns
normally, never propagating an exception to its caller. -/
def createAuditLog (action : String) (outcome : AuditInsertOutcome) : List LogEntry :=
  match auditLogTryBlock action outcome with
  | .ok logs => logs
  | .error _ =>
      [{ level := .error,
         message := "[AuditLogHelper] Fallo critico al intentar guardar el log para la accion "
           ++ action ++ ":" }]

/-- The internal guard error codes, rendered as the strings the guards carry. -/
def authErrorCode : AuthError → String
  | .SESSION_NOT_FOUND => "SESSION_NOT_FOUND"
  | .PERMISSION_DENIED => "PERMISSION_DENIED"
  | .NOT_FOUND => "NOT_FOUND"

/-- The internal error codes of the guard layer that the spec says must never
reach the client. -/
def internalCodes : List String :=
  ["PERMISSION_DENIED", "NOT_FOUND", "SESSION_NOT_FOUND"]

/-- Parsed form payload of `CreateSiteServerSchema`. -/
structure CreateSiteInput where
  workspace_id : String
  subdomain : String
  name : String
  deriving DecidableEq, Repr

/-- Environment of `createSiteAction`: guard environment plus the outcomes of
the `sites` insert and of the audit-log insert. -/
structure CreateSiteEnv where
  auth : AuthEnv
  insertResult : InsertResult
  auditOutcome : AuditInsertOutcome
  deriving DecidableEq, Repr

/-- Embedding of `createSiteAction` (src/lib/actions/sites.actions.ts):
parse → requireWorkspacePermission(workspace_id, [owner, admin]) → insert
(mapping the 23505 unique-constraint conflict to a dedicated message) →
createAuditLog("site.created") → revalidatePath → success. -/
def createSiteAction (env : CreateSiteEnv) (input : ParseResult CreateSiteInput) :
    ActionResult String × ActionTrace :=
  match input with
  | .zodError =>
      (.failure "Datos de formulario inválidos.", { logs := [], events := [] })
  | .ok parsed =>
      let check := requireWorkspacePermission env.auth parsed.workspace_id [.owner, .admin]
      match check.fst with
      | .failure _ =>
          (.failure "No tienes permiso para crear sitios en este workspace.", check.snd)
      | .success _ =>
          match env.insertResult with
          | .failed e =>
              if e.code == "23505" then
                (.failure "Este subdominio ya está en uso.", check.snd)
              else
                (.failure "No se pudo crear el sitio.",
                 { logs := check.snd.logs ++
                     [{ level := .error,
                        message := "[SitesActions] Error al crear el sitio en la base de datos para el workspace "
                          ++ parsed.workspace_id ++ ":" }],
                   events := check.snd.events })
          | .inserted newId =>
              let auditLogs := createAuditLog "site.created" env.auditOutcome
              (.success newId,
               { logs := check.snd.logs ++ auditLogs,
                 events := check.snd.events ++
                   [.auditAttempt "site.created", .revalidated "/dashboard/sites"] })

/-- Parsed form payload of `UpdateSiteSchema` (the update payload itself is
opaque to the control flow modelled here). -/
structure UpdateSiteInput where
  site_id : String
  deriving DecidableEq, Repr

/-- Environment of `updateSiteAction`. -/
structure UpdateSiteEnv where
  auth : AuthEnv
  updateError : Option PgError
  auditOutcome : AuditInsertOutcome
  deriving DecidableEq, Repr

/-- Embedding of `updateSiteAction` (src/lib/actions/sites.actions.ts):
parse → requireSitePermission(site_id, [owner, admin]) — whose failure code is
passed to the caller verbatim — → update → createAuditLog("site.updated") →
revalidatePath twice → success message. -/
def updateSiteAction (env : UpdateSiteEnv) (input : ParseResult UpdateSiteInput) :
    ActionResult String × ActionTrace :=
  match input with
  | .zodError =>
      (.failure "Datos de formulario inválidos.", { logs := [], events := [] })
  | .ok parsed =>
      let check := requireSitePermission env.auth parsed.site_id [.owner, .admin]
      match check.fst with
      | .failure e => (.failure (authErrorCode e), check.snd)
      | .success _ =>
          match env.updateError with
          | some _ =>
              (.failure "No se pudo actualizar el sitio.",
               { logs := check.snd.logs ++
                   [{ level := .error,
                      message := "[SitesActions] Error al actualizar el sitio "
                        ++ parsed.site_id ++ ":" }],
                 events := check.snd.events })
          | none =>
              let auditLogs := createAuditLog "site.updated" env.auditOutcome
              (.success "Sitio actualizado correctamente.",
               { logs := check.snd.logs ++ auditLogs,
                 events := check.snd.events ++
                   [.auditAttempt "site.updated",
                    .revalidated ("/dashboard/sites/" ++ parsed.site_id ++ "/settings"),
                    .revalidated "/dashboard/sites"] })

/-- Parsed form payload of `DeleteSiteSchema`. -/
structure DeleteSiteInput where
  siteId : String
  deriving DecidableEq, Repr

/-- Environment of `deleteSiteAction`. -/
structure DeleteSiteEnv where
  auth : AuthEnv
  deleteError : Option PgError
  auditOutcome : AuditInsertOutcome
  deriving DecidableEq, Repr

/-- Embedding of `deleteSiteAction` (src/lib/actions/sites.actions.ts):
parse → requireSitePermission(siteId, [owner]) — failure code passed verbatim —
→ delete → createAuditLog("site.deleted") → revalidatePath → success message. -/
def deleteSiteAction (env : DeleteSiteEnv) (input : ParseResult DeleteSiteInput) :
    ActionResult String × ActionTrace :=
  match input with
  | .zodError =>
      (.failure "ID de sitio inválido.", { logs := [], events := [] })
  | .ok parsed =>
      let check := requireSitePermission env.auth parsed.siteId [.owner]
      match check.fst with
      | .failure e => (.failure (authErrorCode e), check.snd)
      | .success _ =>
          match env.deleteError with
          | some _ =>
              (.failure "No se pudo eliminar el sitio.",
               { logs := check.snd.logs ++
                   [{ level := .error,
                      message := "[SitesActions] Error al eliminar el sitio "
                        ++ parsed.siteId ++ ":" }],
                 events := check.snd.events })
          | none =>
              let auditLogs := createAuditLog "site.deleted" env.auditOutcome
              (.success "Sitio eliminado correctamente.",
               { logs := check.snd.logs ++ auditLogs,
                 events := check.snd.events ++
                   [.auditAttempt "site.deleted", .revalidated "/dashboard/sites"] })

/-- Parsed form payload of `CreateCampaignSchema`. -/
structure CreateCampaignInput where
  name : String
  slug : String
  site_id : String
  deriving DecidableEq, Repr

/-- Environment of `createCampaignAction`. -/
structure CreateCampaignEnv where
  auth : AuthEnv
  insertResult : InsertResult
  auditOutcome : AuditInsertOutcome
  deriving DecidableEq, Repr

/-- Embedding of `createCampaignAction` (src/lib/actions/campaigns.actions.ts).
Note the order faithful to the source: `getAuthenticatedUser` runs BEFORE the
schema parse, so an unauthenticated call answers with the authentication error
even on malformed input; the permission lookup happens only after the parse
and the site fetch succeed. -/
def createCampaignAction (env : CreateCampaignEnv)
    (input : ParseResult CreateCampaignInput) : ActionResult String × ActionTrace :=
  match env.auth.session with
  | none => (.failure "Usuario no autenticado.", { logs := [], events := [] })
  | some user =>
      match input with
      | .zodError => (.failure "Datos inválidos.", { logs := [], events := [] })
      | .ok parsed =>
          match getSiteById env.auth.sites parsed.site_id with
          | none => (.failure "El sitio asociado no existe.", { logs := [], events := [] })
          | some site =>
              let check := hasWorkspacePermission
                (dbSingle env.auth.members user.id site.workspace_id)
                user.id site.workspace_id [.owner, .admin, .member]
              if check.fst then
                match env.insertResult with
                | .failed _ =>
                    (.failure "No se pudo crear la campaña.",
                     { logs := check.snd ++
                         [{ level := .error,
                            message := "Error al crear la campaña en la base de datos:" }],
                       events := [.permCheckInvoked user.id site.workspace_id] })
                | .inserted newId =>
                    let auditLogs := createAuditLog "campaign.created" env.auditOutcome
                    (.success newId,
                     { logs := check.snd ++ auditLogs,
                       events := [.permCheckInvoked user.id site.workspace_id,
                         .auditAttempt "campaign.created",
                         .revalidated ("/dashboard/sites/" ++ parsed.site_id ++ "/campaigns")] })
              else
                (.failure "No tienes permiso para crear campañas en este sitio.",
                 { logs := check.snd ++
                     [{ level := .warn,
                        message := "[SEGURIDAD] VIOLACION DE ACCESO: Usuario " ++ user.id
                          ++ " intento crear una campana en el sitio " ++ parsed.site_id
                          ++ " sin permisos." }],
                   events := [.permCheckInvoked user.id site.workspace_id] })

/-- Recognizes an audit-log write attempt in an event trace. -/
def isAuditEvent : TraceEvent → Bool
  | .auditAttempt _ => true
  | _ => false

/-- Recognizes a permission lookup in an event trace. -/
def isPermEvent : TraceEvent → Bool
  | .permCheckInvoked _ _ => true
  | _ => false

/-- The status values of the subdomain-availability state machine. -/
inductive AvailabilityStatus where
  | idle
  | checking
  | available
  | unavailable
  deriving DecidableEq, Repr

/-- The reducer state (src/lib/hooks/use-subdomain-availability.ts). -/
structure AvailabilityState where
  status : AvailabilityStatus
  deriving DecidableEq, Repr

/-- The reducer actions of the availability state machine. -/
inductive AvailabilityAction where
  | CHECK_START
  | CHECK_SUCCESS (isAvailable : Bool)
  | CHECK_ERROR
  | RESET
  deriving DecidableEq, Repr

/-- The initial state of the availability machine. -/
def availabilityInitialState : AvailabilityState := { status := .idle }

/-- Embedding of `availabilityReducer`
(src/lib/hooks/use-subdomain-availability.ts). -/
def availabilityReducer (state : AvailabilityState) (action : AvailabilityAction) :
    AvailabilityState :=
  match action with
  | .CHECK_START => { status := .checking }
  | .CHECK_SUCCESS isAvailable =>
      { status := if isAvailable then .available else .unavailable }
  | .CHECK_ERROR => { status := .unavailable }
  | .RESET => availabilityInitialState

/-- A resource managed by the optimistic hook: an id plus an opaque payload. -/
structure ResourceItem where
  id : String
  payload : String
  deriving DecidableEq, Repr

/-- The local state of `useOptimisticResourceManagement`: the items list and
the id of the resource currently being mutated. -/
structure HookState where
  items : List ResourceItem
  mutatingId : Option String
  deriving DecidableEq, Repr

/-- Embedding of `handleCreate`
(src/lib/hooks/use-optimistic-resource-management.ts): snapshot the items,
append the phantom item (id "optimistic-" ++ timestamp), set mutatingId, run
the server action; on failure restore the snapshot; finally clear mutatingId.
Returns the final state and whether a refresh was requested. -/
def handleCreateRun (s : HookState) (ts payload : String)
    (serverResult : ActionResult String) : HookState × Bool :=
  let phantomItem : ResourceItem := { id := "optimistic-" ++ ts, payload := payload }
  let previousItems := s.items
  let s1 : HookState := { s with items := s.items ++ [phantomItem] }
  let s2 : HookState := { s1 with mutatingId := some phantomItem.id }
  match serverResult with
  | .success _ => ({ s2 with mutatingId := none }, true)
  | .failure _ => ({ s2 with items := previousItems, mutatingId := none }, false)

/-- A form payload: ordered key/value entries, looked up by key as
`formData.get` does (first entry wins, null when absent). -/
def formDataGet (fd : List (String × String)) (key : String) : Option String :=
  (fd.find? (fun p => p.fst == key)).map (fun p => p.snd)

/-- Embedding of `handleDelete`
(src/lib/hooks/use-optimistic-resource-management.ts): read the id from the
form entry "siteId"; a missing entry (null) or empty string is falsy in the
source and aborts before any state change or server call.  Otherwise filter
the item out, set mutatingId, run the server action, roll back on failure.
Returns the final state and whether the delete server action was invoked. -/
def handleDeleteRun (s : HookState) (fd : List (String × String))
    (serverResult : ActionResult String) : HookState × Bool :=
  match formDataGet fd "siteId" with
  | none => (s, false)
  | some idToDelete =>
      if idToDelete == "" then (s, false)
      else
        let previousItems := s.items
        let s1 : HookState := { s with items := s.items.filter (fun item => item.id != idToDelete) }
        let s2 : HookState := { s1 with mutatingId := some idToDelete }
        match serverResult with
        | .success _ => ({ s2 with mutatingId := none }, true)
        | .failure _ => ({ s2 with items := previousItems, mutatingId := none }, true)

/-- Membership in the filtered rows unfolds to membership in the table plus
the two column filters. -/
theorem mem_matchingRows {db : List MembershipRow} {u w : String} {r : MembershipRow} :
    r ∈ matchingRows db u w ↔ r ∈ db ∧ r.user_id = u ∧ r.workspace_id = w := by
  simp [matchingRows, List.mem_filter, and_assoc]

/-- When exactly one row matches, the single() query returns its role. -/
theorem dbSingle_eq_of_single {db : List MembershipRow} {u w : String} {r : MembershipRow}
    (hm : matchingRows db u w = [r]) :
    dbSingle db u w = { data := some r.role, error := none } := by
  unfold dbSingle
  rw [hm]

/-- When no row matches, the single() query reports PGRST116. -/
theorem dbSingle_eq_of_nil {db : List MembershipRow} {u w : String}
    (hm : matchingRows db u w = []) :
    dbSingle db u w = { data := none, error := some { code := "PGRST116" } } := by
  unfold dbSingle
  rw [hm]

/-- On a found row the permission check is pure role comparison, no logging. -/
theorem hasWorkspacePermission_found (role : WorkspaceRole) (u w : String)
    (rr : List WorkspaceRole) :
    hasWorkspacePermission { data := some role, error := none } u w rr =
      (rr.contains role, []) := rfl

/-- On a PGRST116 (row absent) result the check returns false with no log. -/
theorem hasWorkspacePermission_pgrst116 (d : Option WorkspaceRole) (u w : String)
    (rr : List WorkspaceRole) :
    hasWorkspacePermission { data := d, error := some { code := "PGRST116" } } u w rr =
      (false, []) := by
  simp [hasWorkspacePermission]

/-- The workspace guard's trace never contains an audit-log attempt. -/
theorem requireWorkspacePermission_no_audit (env : AuthEnv) (w : String)
    (rr : List WorkspaceRole) :
    ((requireWorkspacePermission env w rr).snd.events.filter isAuditEvent) = [] := by
  obtain ⟨sess, mems, sts⟩ := env
  cases sess with
  | none => rfl
  | some u =>
      simp only [requireWorkspacePermission]
      split <;> rfl

/-- The site guard's trace never contains an audit-log attempt. -/
theorem requireSitePermission_no_audit (env : AuthEnv) (siteId : String)
    (rr : List WorkspaceRole) :
    ((requireSitePermission env siteId rr).snd.events.filter isAuditEvent) = [] := by
  obtain ⟨sess, mems, sts⟩ := env
  cases sess with
  | none => rfl
  | some u =>
      rcases hsite : getSiteById sts siteId with _ | site
      · simp [requireSitePermission, hsite]
      · simp only [requireSitePermission, hsite]
        split <;> rfl

/-- Claim C9: the subdomain-availability reducer realizes the state machine
idle → checking → (available | unavailable): CHECK_START always yields
checking, CHECK_SUCCESS yields available exactly when isAvailable is true and
unavailable otherwise, CHECK_ERROR yields unavailable (fail-closed), and
RESET returns to idle — never an ambiguous state. -/
theorem availabilityReducer_machine_C9 (s : AvailabilityState) (b : Bool) :
    availabilityReducer s .CHECK_START = { status := .checking }
    ∧ availabilityReducer s (.CHECK_SUCCESS b) =
        { status := if b then .available else .unavailable }
    ∧ availabilityReducer s .CHECK_ERROR = { status := .unavailable }
    ∧ availabilityReducer s .RESET = { status := .idle } :=
  ⟨rfl, rfl, rfl, rfl⟩

/-- Claim C3: requireSitePermission with an authenticated session and a
non-existent site id returns NOT_FOUND and never invokes the
workspace-permission check (its event trace is empty). -/
theorem requireSitePermission_notFound_C3 (env : AuthEnv) (u : User) (siteId : String)
    (rr : List WorkspaceRole)
    (hs : env.session = some u)
    (hsite : getSiteById env.sites siteId = none) :
    (requireSitePermission env siteId rr).fst = .failure .NOT_FOUND
    ∧ ((requireSitePermission env siteId rr).snd.events.filter isPermEvent) = [] := by
  simp [requireSitePermission, hs, hsite]

/-- A concrete guard environment: an authenticated user, empty tables. -/
def envC3 : AuthEnv := { session := some { id := "u1" }, members := [], sites := [] }

/-- Witness for C3 at a concrete environment: an authenticated user and an
empty sites table. -/
theorem requireSitePermission_notFound_C3_witness :
    envC3.session = some { id := "u1" }
    ∧ getSiteById envC3.sites "s1" = none
    ∧ ((requireSitePermission envC3 "s1" [.owner]).fst = .failure .NOT_FOUND
       ∧ ((requireSitePermission envC3 "s1" [.owner]).snd.events.filter isPermEvent) = []) :=
  ⟨rfl, rfl,
   requireSitePermission_notFound_C3 envC3 { id := "u1" } "s1" [.owner] rfl rfl⟩

/-- Claim C1: hasWorkspacePermission returns true iff a membership row exists
for the (user, workspace) pair with a role in requiredRoles (under the data
model's at-most-one-membership invariant); when no row exists it returns
false without logging; on any other lookup failure it logs an error entry
and still returns false (fail-closed). -/
theorem hasWorkspacePermission_correct_C1
    (db : List MembershipRow) (u w : String) (rr : List WorkspaceRole)
    (d : Option WorkspaceRole) (e : PgError)
    (hone : (matchingRows db u w).length ≤ 1)
    (he : e.code ≠ "PGRST116") :
    ((hasWorkspacePermission (dbSingle db u w) u w rr).fst = true
       ↔ ∃ r, r ∈ db ∧ r.user_id = u ∧ r.workspace_id = w ∧ rr.contains r.role = true)
    ∧ (matchingRows db u w = [] →
        hasWorkspacePermission (dbSingle db u w) u w rr = (false, []))
    ∧ (hasWorkspacePermission { data := d, error := some e } u w rr).fst = false
    ∧ (∃ l, (hasWorkspacePermission { data := d, error := some e } u w rr).snd = [l]
        ∧ l.level = .error) := by
  refine ⟨?_, ?_, ?_, ?_⟩
  · rcases hm : matchingRows db u w with _ | ⟨r, rest⟩
    · rw [dbSingle_eq_of_nil hm, hasWorkspacePermission_pgrst116]
      simp only [Bool.false_eq_true, false_iff, not_exists]
      rintro x ⟨hxdb, hxu, hxw, -⟩
      have hx : x ∈ matchingRows db u w := mem_matchingRows.mpr ⟨hxdb, hxu, hxw⟩
      rw [hm] at hx
      exact absurd hx (List.not_mem_nil x)
    · have hrest : rest = [] := by
        rw [hm] at hone
        simpa using hone
      subst hrest
      rw [dbSingle_eq_of_single hm, hasWorkspacePermission_found]
      constructor
      · intro hc
        have hrmem : r ∈ matchingRows db u w := by
          rw [hm]; exact List.mem_singleton.mpr rfl
        obtain ⟨hdb, hu2, hw2⟩ := mem_matchingRows.mp hrmem
        exact ⟨r, hdb, hu2, hw2, hc⟩
      · rintro ⟨x, hxdb, hxu, hxw, hxc⟩
        have hx : x ∈ matchingRows db u w := mem_matchingRows.mpr ⟨hxdb, hxu, hxw⟩
        rw [hm] at hx
        rw [← List.mem_singleton.mp hx]
        exact hxc
  · intro hm
    rw [dbSingle_eq_of_nil hm, hasWorkspacePermission_pgrst116]
  · simp [hasWorkspacePermission, he]
  · simp [hasWorkspacePermission, he]

/-- A one-row membership table used as the concrete C1 scenario. -/
def membersC1 : List MembershipRow :=
  [{ user_id := "u1", workspace_id := "w1", role := .owner }]

/-- Witness for C1 at a concrete table: user u1 is owner of w1, the injected
failure carries code XX000. -/
theorem hasWorkspacePermission_correct_C1_witness :
    ((matchingRows membersC1 "u1" "w1").length ≤ 1
     ∧ (PgError.code { code := "XX000" }) ≠ "PGRST116")
    ∧ (((hasWorkspacePermission (dbSingle membersC1 "u1" "w1") "u1" "w1" [.owner]).fst = true
          ↔ ∃ r, r ∈ membersC1 ∧ r.user_id = "u1" ∧ r.workspace_id = "w1"
              ∧ [WorkspaceRole.owner].contains r.role = true)
       ∧ (matchingRows membersC1 "u1" "w1" = [] →
            hasWorkspacePermission (dbSingle membersC1 "u1" "w1") "u1" "w1" [.owner] = (false, []))
       ∧ (hasWorkspacePermission { data := none, error := some { code := "XX000" } }
            "u1" "w1" [.owner]).fst = false
       ∧ (∃ l, (hasWorkspacePermission { data := none, error := some { code := "XX000" } }
              "u1" "w1" [.owner]).snd = [l] ∧ l.level = .error)) :=
  ⟨⟨by decide, by decide⟩,
   hasWorkspacePermission_correct_C1 membersC1 "u1" "w1" [.owner] none
     { code := "XX000" } (by decide) (by decide)⟩

/-- Concrete scenario for C2: user u1 is a member (not owner) of w1. -/
def envC2 : AuthEnv :=
  { session := some { id := "u1" },
    members := [{ user_id := "u1", workspace_id := "w1", role := .member }],
    sites := [] }

/-- Counterexample to claim C2 as stated: with membership role member and
requiredRoles [owner], requireWorkspacePermission does return
PERMISSION_DENIED, but it emits zero warning logs — not exactly one warning
containing the actor and workspace ids.  (The warning on denial exists in
requireAppRole and requireSitePermission, not in this guard.) -/
theorem requireWorkspacePermission_warnlog_C2_cex :
    (requireWorkspacePermission envC2 "w1" [.owner]).fst = .failure .PERMISSION_DENIED
    ∧ ((requireWorkspacePermission envC2 "w1" [.owner]).snd.logs.filter
        (fun l => l.level == .warn)).length = 0 := by
  constructor
  · rfl
  · rfl

/-- Claim C2 (amended): when the membership role is not in requiredRoles,
requireWorkspacePermission returns PERMISSION_DENIED and emits no warning log
at all — the denial is silent in this guard. -/
theorem requireWorkspacePermission_denied_silent_C2
    (env : AuthEnv) (u : User) (w : String) (rr : List WorkspaceRole)
    (r : MembershipRow)
    (hs : env.session = some u)
    (hm : matchingRows env.members u.id w = [r])
    (hr : rr.contains r.role = false) :
    (requireWorkspacePermission env w rr).fst = .failure .PERMISSION_DENIED
    ∧ ((requireWorkspacePermission env w rr).snd.logs.filter
        (fun l => l.level == .warn)) = [] := by
  simp only [requireWorkspacePermission, hs, dbSingle_eq_of_single hm,
    hasWorkspacePermission_found, hr]
  constructor
  · rfl
  · rfl

/-- Witness for the amended C2 at the concrete scenario envC2. -/
theorem requireWorkspacePermission_denied_silent_C2_witness :
    (envC2.session = some { id := "u1" }
     ∧ matchingRows envC2.members "u1" "w1" =
         [{ user_id := "u1", workspace_id := "w1", role := .member }]
     ∧ ([WorkspaceRole.owner].contains WorkspaceRole.member) = false)
    ∧ ((requireWorkspacePermission envC2 "w1" [.owner]).fst = .failure .PERMISSION_DENIED
       ∧ ((requireWorkspacePermission envC2 "w1" [.owner]).snd.logs.filter
           (fun l => l.level == .warn)) = []) :=
  ⟨⟨rfl, by decide, by decide⟩,
   requireWorkspacePermission_denied_silent_C2 envC2 { id := "u1" } "w1" [.owner]
     { user_id := "u1", workspace_id := "w1", role := .member } rfl (by decide) (by decide)⟩

/-- An update environment with no active session. -/
def envC4 : UpdateSiteEnv :=
  { auth := { session := none, members := [], sites := [] },
    updateError := none, auditOutcome := .ok }

/-- A create-site environment with no active session. -/
def envCS4 : CreateSiteEnv :=
  { auth := { session := none, members := [], sites := [] },
    insertResult := .inserted "s9", auditOutcome := .ok }

/-- Counterexample to claim C4 as stated: updateSiteAction passes the guard's
internal error code verbatim to the client — an unauthenticated call is
answered with the string "SESSION_NOT_FOUND", one of the internal codes the
claim says never reach the client. -/
theorem updateSiteAction_internalCode_C4_cex :
    (updateSiteAction envC4 (.ok { site_id := "s1" })).fst = .failure "SESSION_NOT_FOUND"
    ∧ internalCodes.contains "SESSION_NOT_FOUND" = true := by
  exact ⟨rfl, by decide⟩

/-- Claim C4 (amended): createSiteAction surfaces only human-readable error
strings (never an internal code), but updateSiteAction and deleteSiteAction
return the guard's internal error code (SESSION_NOT_FOUND, NOT_FOUND,
PERMISSION_DENIED) verbatim to the client whenever their guard fails. -/
theorem siteActions_errorSurface_C4
    (envC : CreateSiteEnv) (inputC : ParseResult CreateSiteInput) (msg : String)
    (envU : UpdateSiteEnv) (inpU : UpdateSiteInput) (e : AuthError)
    (envD : DeleteSiteEnv) (inpD : DeleteSiteInput) (e2 : AuthError)
    (hmsg : (createSiteAction envC inputC).fst = .failure msg)
    (hguardU : (requireSitePermission envU.auth inpU.site_id [.owner, .admin]).fst = .failure e)
    (hguardD : (requireSitePermission envD.auth inpD.siteId [.owner]).fst = .failure e2) :
    internalCodes.contains msg = false
    ∧ (updateSiteAction envU (.ok inpU)).fst = .failure (authErrorCode e)
    ∧ (deleteSiteAction envD (.ok inpD)).fst = .failure (authErrorCode e2)
    ∧ internalCodes.contains (authErrorCode e) = true := by
  refine ⟨?_, ?_, ?_, ?_⟩
  · cases inputC with
    | zodError =>
        simp only [createSiteAction] at hmsg
        injection hmsg with h
        subst h
        decide
    | ok parsed =>
        simp only [createSiteAction] at hmsg
        rcases hg : (requireWorkspacePermission envC.auth parsed.workspace_id
            [.owner, .admin]).fst with uu | ee
        · rw [hg] at hmsg
          rcases hi : envC.insertResult with newId | epg
          · rw [hi] at hmsg
            simp at hmsg
          · rw [hi] at hmsg
            cases h23 : epg.code == "23505" with
            | true =>
                simp only [h23, if_true] at hmsg
                injection hmsg with h
                subst h
                decide
            | false =>
                simp only [h23, Bool.false_eq_true, if_false] at hmsg
                injection hmsg with h
                subst h
                decide
        · rw [hg] at hmsg
          injection hmsg with h
          subst h
          decide
  · simp only [updateSiteAction]
    rw [hguardU]
  · simp only [deleteSiteAction]
    rw [hguardD]
  · cases e <;> decide

/-- Witness for the amended C4: an unauthenticated create (malformed input)
and unauthenticated update and delete calls. -/
theorem siteActions_errorSurface_C4_witness :
    ((createSiteAction envCS4 .zodError).fst = .failure "Datos de formulario inválidos."
     ∧ (requireSitePermission envC4.auth "s1" [.owner, .admin]).fst =
         .failure .SESSION_NOT_FOUND
     ∧ (requireSitePermission envC4.auth "s1" [.owner]).fst = .failure .SESSION_NOT_FOUND)
    ∧ (internalCodes.contains "Datos de formulario inválidos." = false
       ∧ (updateSiteAction envC4 (.ok { site_id := "s1" })).fst =
           .failure (authErrorCode .SESSION_NOT_FOUND)
       ∧ (deleteSiteAction { auth := envC4.auth, deleteError := none, auditOutcome := .ok }
            (.ok { siteId := "s1" })).fst = .failure (authErrorCode .SESSION_NOT_FOUND)
       ∧ internalCodes.contains (authErrorCode .SESSION_NOT_FOUND) = true) :=
  ⟨⟨rfl, rfl, rfl⟩,
   siteActions_errorSurface_C4 envCS4 .zodError "Datos de formulario inválidos."
     envC4 { site_id := "s1" } .SESSION_NOT_FOUND
     { auth := envC4.auth, deleteError := none, auditOutcome := .ok }
     { siteId := "s1" } .SESSION_NOT_FOUND rfl rfl rfl⟩

/-- Claim C5: an authorized createSiteAction whose insert fails with the
unique-constraint conflict code 23505 returns the conflict-specific message
"Este subdominio ya está en uso." — distinct from the generic failure
message — and makes no audit-log write attempt. -/
theorem createSiteAction_conflict_C5
    (env : CreateSiteEnv) (inp : CreateSiteInput) (u : User)
    (hg : (requireWorkspacePermission env.auth inp.workspace_id [.owner, .admin]).fst =
      .success u)
    (hi : env.insertResult = .failed { code := "23505" }) :
    (createSiteAction env (.ok inp)).fst = .failure "Este subdominio ya está en uso."
    ∧ ("Este subdominio ya está en uso." : String) ≠ "No se pudo crear el sitio."
    ∧ ((createSiteAction env (.ok inp)).snd.events.filter isAuditEvent) = [] := by
  refine ⟨?_, by decide, ?_⟩
  · simp only [createSiteAction]
    rw [hg, hi]
    rfl
  · simp only [createSiteAction]
    rw [hg, hi]
    exact requireWorkspacePermission_no_audit env.auth inp.workspace_id [.owner, .admin]

/-- A concrete conflict scenario: owner u1 of w1 creates subdomain acme while
the storage layer reports the 23505 unique-constraint violation. -/
def envC5 : CreateSiteEnv :=
  { auth := { session := some { id := "u1" },
              members := [{ user_id := "u1", workspace_id := "w1", role := .owner }],
              sites := [] },
    insertResult := .failed { code := "23505" },
    auditOutcome := .ok }

/-- Witness for C5 at the concrete conflict scenario. -/
theorem createSiteAction_conflict_C5_witness :
    ((requireWorkspacePermission envC5.auth "w1" [.owner, .admin]).fst =
       .success { id := "u1" }
     ∧ envC5.insertResult = .failed { code := "23505" })
    ∧ ((createSiteAction envC5
          (.ok { workspace_id := "w1", subdomain := "acme", name := "Acme" })).fst =
         .failure "Este subdominio ya está en uso."
       ∧ ("Este subdominio ya está en uso." : String) ≠ "No se pudo crear el sitio."
       ∧ ((createSiteAction envC5
            (.ok { workspace_id := "w1", subdomain := "acme", name := "Acme" })).snd.events.filter
            isAuditEvent) = []) :=
  ⟨⟨by decide, rfl⟩,
   createSiteAction_conflict_C5 envC5
     { workspace_id := "w1", subdomain := "acme", name := "Acme" } { id := "u1" }
     (by decide) rfl⟩

/-- Claim C6: a mutation that reaches its success path makes exactly one
audit-log write attempt, and the mutation's success result is unaffected by
the audit write's outcome — createAuditLog catches any storage error or
thrown exception, turning it into an error log instead of propagating.
Shown for createSiteAction and updateSiteAction. -/
theorem mutation_audit_isolation_C6
    (envC : CreateSiteEnv) (inpC : CreateSiteInput) (u : User) (newId : String)
    (envU : UpdateSiteEnv) (inpU : UpdateSiteInput) (du : User × SiteRow)
    (o : AuditInsertOutcome)
    (hgC : (requireWorkspacePermission envC.auth inpC.workspace_id [.owner, .admin]).fst =
      .success u)
    (hiC : envC.insertResult = .inserted newId)
    (hgU : (requireSitePermission envU.auth inpU.site_id [.owner, .admin]).fst = .success du)
    (huU : envU.updateError = none)
    (ho : o ≠ .ok) :
    ((createSiteAction envC (.ok inpC)).fst = .success newId
     ∧ ((createSiteAction envC (.ok inpC)).snd.events.filter isAuditEvent).length = 1
     ∧ (createSiteAction { envC with auditOutcome := o } (.ok inpC)).fst = .success newId)
    ∧ ((updateSiteAction envU (.ok inpU)).fst = .success "Sitio actualizado correctamente."
       ∧ ((updateSiteAction envU (.ok inpU)).snd.events.filter isAuditEvent).length = 1
       ∧ (updateSiteAction { envU with auditOutcome := o } (.ok inpU)).fst =
           .success "Sitio actualizado correctamente.")
    ∧ (∃ l, createAuditLog "site.created" o = [l] ∧ l.level = .error) := by
  refine ⟨⟨?_, ?_, ?_⟩, ⟨?_, ?_, ?_⟩, ?_⟩
  · simp only [createSiteAction]
    rw [hgC, hiC]
  · simp only [createSiteAction]
    rw [hgC, hiC]
    simp [List.filter_append, requireWorkspacePermission_no_audit, isAuditEvent]
  · simp only [createSiteAction]
    rw [hgC, hiC]
  · simp only [updateSiteAction]
    rw [hgU, huU]
  · simp only [updateSiteAction]
    rw [hgU, huU]
    simp [List.filter_append, requireSitePermission_no_audit, isAuditEvent]
  · simp only [updateSiteAction]
    rw [hgU, huU]
  · cases o with
    | ok => exact absurd rfl ho
    | dbError e => exact ⟨_, rfl, rfl⟩
    | thrown m => exact ⟨_, rfl, rfl⟩

/-- Concrete success-path create environment: owner u1 in w1, insert ok. -/
def envC6 : CreateSiteEnv :=
  { auth := { session := some { id := "u1" },
              members := [{ user_id := "u1", workspace_id := "w1", role := .owner }],
              sites := [] },
    insertResult := .inserted "s1",
    auditOutcome := .ok }

/-- Concrete success-path update environment: owner u1 in w1, site s1 exists. -/
def envU6 : UpdateSiteEnv :=
  { auth := { session := some { id := "u1" },
              members := [{ user_id := "u1", workspace_id := "w1", role := .owner }],
              sites := [{ id := "s1", subdomain := "acme", workspace_id := "w1" }] },
    updateError := none,
    auditOutcome := .ok }

/-- Witness for C6 at concrete success-path environments, with an audit write
that throws. -/
theorem mutation_audit_isolation_C6_witness :
    ((requireWorkspacePermission envC6.auth "w1" [.owner, .admin]).fst =
       .success { id := "u1" }
     ∧ envC6.insertResult = .inserted "s1"
     ∧ (requireSitePermission envU6.auth "s1" [.owner, .admin]).fst =
         .success ({ id := "u1" }, { id := "s1", subdomain := "acme", workspace_id := "w1" })
     ∧ envU6.updateError = none
     ∧ AuditInsertOutcome.thrown "boom" ≠ .ok)
    ∧ (((createSiteAction envC6
           (.ok { workspace_id := "w1", subdomain := "acme", name := "Acme" })).fst =
          .success "s1"
        ∧ ((createSiteAction envC6
             (.ok { workspace_id := "w1", subdomain := "acme", name := "Acme" })).snd.events.filter
             isAuditEvent).length = 1
        ∧ (createSiteAction { envC6 with auditOutcome := .thrown "boom" }
             (.ok { workspace_id := "w1", subdomain := "acme", name := "Acme" })).fst =
            .success "s1")
       ∧ ((updateSiteAction envU6 (.ok { site_id := "s1" })).fst =
            .success "Sitio actualizado correctamente."
          ∧ ((updateSiteAction envU6 (.ok { site_id := "s1" })).snd.events.filter
              isAuditEvent).length = 1
          ∧ (updateSiteAction { envU6 with auditOutcome := .thrown "boom" }
               (.ok { site_id := "s1" })).fst = .success "Sitio actualizado correctamente.")
       ∧ (∃ l, createAuditLog "site.created" (.thrown "boom") = [l] ∧ l.level = .error)) :=
  ⟨⟨by decide, rfl, by decide, rfl, by decide⟩,
   mutation_audit_isolation_C6 envC6
     { workspace_id := "w1", subdomain := "acme", name := "Acme" } { id := "u1" } "s1"
     envU6 { site_id := "s1" }
     ({ id := "u1" }, { id := "s1", subdomain := "acme", workspace_id := "w1" })
     (.thrown "boom") (by decide) rfl (by decide) rfl (by decide)⟩

/-- A campaign environment with no active session. -/
def envC7 : CreateCampaignEnv :=
  { auth := { session := none, members := [], sites := [] },
    insertResult := .inserted "c1", auditOutcome := .ok }

/-- A campaign environment with an authenticated user. -/
def envCamp7 : CreateCampaignEnv :=
  { auth := { session := some { id := "u1" }, members := [], sites := [] },
    insertResult := .inserted "c1", auditOutcome := .ok }

/-- A create-site environment used for the malformed-input scenario. -/
def envS7 : CreateSiteEnv :=
  { auth := { session := none, members := [], sites := [] },
    insertResult := .inserted "s1", auditOutcome := .ok }

/-- Counterexample to claim C7 as stated: createCampaignAction resolves the
session BEFORE parsing, so an unauthenticated call with malformed input is
answered with the authentication error "Usuario no autenticado.", not with
the generic invalid-data error. -/
theorem createCampaignAction_authFirst_C7_cex :
    (createCampaignAction envC7 .zodError).fst = .failure "Usuario no autenticado."
    ∧ ("Usuario no autenticado." : String) ≠ "Datos inválidos." := by
  exact ⟨rfl, by decide⟩

/-- Claim C7 (amended): malformed input never triggers a permission lookup
(the event trace stays empty in every case).  createSiteAction answers
malformed input with the generic invalid-data error before any session or
permission work; createCampaignAction does so only when a session exists,
because its authentication check runs before validation and an
unauthenticated malformed request gets the authentication error instead. -/
theorem malformedInput_validation_C7
    (envS : CreateSiteEnv) (envCamp envCamp2 : CreateCampaignEnv) (u : User)
    (hs : envCamp.auth.session = some u)
    (hn : envCamp2.auth.session = none) :
    createSiteAction envS .zodError =
      (.failure "Datos de formulario inválidos.", { logs := [], events := [] })
    ∧ createCampaignAction envCamp .zodError =
      (.failure "Datos inválidos.", { logs := [], events := [] })
    ∧ createCampaignAction envCamp2 .zodError =
      (.failure "Usuario no autenticado.", { logs := [], events := [] }) := by
  refine ⟨rfl, ?_, ?_⟩
  · simp only [createCampaignAction, hs]
  · simp only [createCampaignAction, hn]

/-- Witness for the amended C7 at concrete environments. -/
theorem malformedInput_validation_C7_witness :
    (envCamp7.auth.session = some { id := "u1" } ∧ envC7.auth.session = none)
    ∧ (createSiteAction envS7 .zodError =
         (.failure "Datos de formulario inválidos.", { logs := [], events := [] })
       ∧ createCampaignAction envCamp7 .zodError =
         (.failure "Datos inválidos.", { logs := [], events := [] })
       ∧ createCampaignAction envC7 .zodError =
         (.failure "Usuario no autenticado.", { logs := [], events := [] })) :=
  ⟨⟨rfl, rfl⟩,
   malformedInput_validation_C7 envS7 envCamp7 envC7 { id := "u1" } rfl rfl⟩

/-- Claim C8: in useOptimisticResourceManagement, when the server action
resolves with a failure, the items after the rollback update equal the
snapshot taken immediately before the optimistic update — the optimistic
insertion (handleCreate) or removal (handleDelete) is fully undone. -/
theorem optimistic_rollback_C8
    (s : HookState) (ts payload err1 err2 idv : String)
    (fd : List (String × String))
    (hid : formDataGet fd "siteId" = some idv)
    (hne : idv ≠ "") :
    (handleCreateRun s ts payload (.failure err1)).fst.items = s.items
    ∧ (handleDeleteRun s fd (.failure err2)).fst.items = s.items := by
  constructor
  · rfl
  · simp [handleDeleteRun, hid, hne]

/-- Witness for C8: one item, a failing create and a failing delete. -/
theorem optimistic_rollback_C8_witness :
    (formDataGet [("siteId", "a")] "siteId" = some "a" ∧ ("a" : String) ≠ "")
    ∧ ((handleCreateRun { items := [{ id := "a", payload := "x" }], mutatingId := none }
          "123" "y" (.failure "fail")).fst.items = [{ id := "a", payload := "x" }]
       ∧ (handleDeleteRun { items := [{ id := "a", payload := "x" }], mutatingId := none }
            [("siteId", "a")] (.failure "fail")).fst.items = [{ id := "a", payload := "x" }]) :=
  ⟨⟨rfl, by decide⟩,
   optimistic_rollback_C8 { items := [{ id := "a", payload := "x" }], mutatingId := none }
     "123" "y" "fail" "fail" "a" [("siteId", "a")] rfl (by decide)⟩

/-- Claim C10: handleDelete reads the id only from the form entry named
"siteId" — its outcome is a function of that entry alone — and when the
entry is absent it is a no-op: the state is unchanged and the delete server
action is never invoked. -/
theorem handleDelete_siteId_only_C10
    (s : HookState) (fd fd2 : List (String × String)) (r : ActionResult String)
    (hagree : formDataGet fd "siteId" = formDataGet fd2 "siteId") :
    (formDataGet fd "siteId" = none → handleDeleteRun s fd r = (s, false))
    ∧ handleDeleteRun s fd r = handleDeleteRun s fd2 r := by
  constructor
  · intro hnone
    simp [handleDeleteRun, hnone]
  · unfold handleDeleteRun
    rw [hagree]

/-- Witness for C10: a form with no siteId entry, and a second form with the
same (absent) siteId entry. -/
theorem handleDelete_siteId_only_C10_witness :
    (formDataGet [("name", "x")] "siteId" = formDataGet [] "siteId")
    ∧ ((formDataGet [("name", "x")] "siteId" = none →
          handleDeleteRun { items := [{ id := "a", payload := "x" }], mutatingId := none }
            [("name", "x")] (.success "ok") =
            ({ items := [{ id := "a", payload := "x" }], mutatingId := none }, false))
       ∧ handleDeleteRun { items := [{ id := "a", payload := "x" }], mutatingId := none }
           [("name", "x")] (.success "ok") =
         handleDeleteRun { items := [{ id := "a", payload := "x" }], mutatingId := none }
           [] (.success "ok")) :=
  ⟨by decide,
   handleDelete_siteId_only_C10 { items := [{ id := "a", payload := "x" }], mutatingId := none }
     [("name", "x")] [] (.success "ok") (by decide)⟩
